import Mathlib

/-!
Verification of the ingestion and normalization engine of the wealthgenie
repository against its design document.

The engine lives in `src/components/upload-modal.tsx` (functions
`parseExcelFile`, `parseTransactionsSheet`, `parseEMISheet`,
`parseSavingsSheet`, `handleFileUpload`) with a second, older ingestion path
in `src/components/upload-page.tsx`.  The definitions below are a shallow
embedding of those functions: a decoded workbook is a list of named sheets,
a sheet a list of rows, a row the association list that
`XLSX.utils.sheet_to_json` produces (header label to raw cell value, in
column order).  JavaScript numbers are modelled as rationals, `NaN` as
`none` in an `Option`, and the `console.warn` skip messages as an explicit
diagnostics component.
-/

namespace WealthGenie

/-- A raw cell value as delivered by `XLSX.utils.sheet_to_json`: a number or
a piece of text.  (Cells that are empty in the workbook are simply absent
from the row object, hence there is no "empty" constructor.) -/
inductive Cell where
  | num (q : ℚ)
  | str (s : String)
deriving DecidableEq, Repr

/-- A row object: header label to raw cell value, in original column order
(`Object.keys` enumerates string keys in insertion order). -/
abbrev Row := List (String × Cell)

/-- A sheet as handed to the row normalizers: the list of row objects. -/
abbrev Sheet := List Row

/-- A decoded workbook: sheet name and sheet content, in workbook order. -/
abbrev Workbook := List (String × Sheet)

/-- `Object.keys(row)`: the header labels of a row, in column order. -/
def rowKeys (r : Row) : List String := r.map Prod.fst

/-- `row[k]` for a key `k` known to be present (all uses look keys up that
`Object.keys(row).find` returned); the default is never reached then. -/
def rowCell (r : Row) (k : String) : Cell :=
  match r.find? (fun p => p.1 == k) with
  | some p => p.2
  | none => Cell.str ""

/-- Does the character list `p` occur as a contiguous run at the start of `s`? -/
def listStartsWith : List Char → List Char → Bool
  | [], _ => true
  | _ :: _, [] => false
  | p :: ps, c :: cs => p == c && listStartsWith ps cs

/-- Does the character list `p` occur as a contiguous run anywhere in `s`? -/
def listHasRun (p : List Char) : List Char → Bool
  | [] => listStartsWith p []
  | c :: cs => listStartsWith p (c :: cs) || listHasRun p cs

/-- `s.includes(pat)` of JavaScript strings. -/
def hasSub (pat s : String) : Bool := listHasRun pat.data s.data

/-- `s.toLowerCase()`, applied character by character (all header and sheet
names involved are ASCII, where JavaScript and `Char.toLower` agree). -/
def lowerStr (s : String) : String := String.mk (s.data.map Char.toLower)

/-- `key.toLowerCase().includes(pat)`, the header matching primitive used
throughout the engine. -/
def lowerHas (key pat : String) : Bool := hasSub pat (lowerStr key)

/-- `Object.keys(row).find(p)`. -/
def findKey (r : Row) (p : String → Bool) : Option String :=
  (rowKeys r).find? p

/-- JavaScript truthiness of a cell value: a number is truthy iff nonzero, a
string iff non-empty (`if (typeKey && row[typeKey])`). -/
def cellTruthy : Cell → Bool
  | .num q => !(q == 0)
  | .str s => !(s == "")

/-- Decimal digits of the fractional remainder `r / d` (`0 ≤ r < d`),
produced until the remainder vanishes or the fuel runs out. -/
def fracDigits : Nat → Nat → Nat → List Char
  | 0, _, _ => []
  | _ + 1, 0, _ => []
  | fuel + 1, r, d =>
    let r10 := r * 10
    Nat.digitChar (r10 / d) :: fracDigits fuel (r10 % d) d

/-- Model of the JavaScript number-to-string conversion `String(x)` for the
rationals that stand in for JS numbers here: sign, integer digits, and the
decimal expansion of the fractional part when it terminates.  All numbers
appearing in the claims are integers or short terminating decimals, where
this agrees exactly with ECMAScript `ToString`. -/
def jsNumToString (q : ℚ) : String :=
  let sgn := if q.num < 0 then "-" else ""
  let n := q.num.natAbs
  let ip := n / q.den
  let r := n % q.den
  sgn ++ toString ip ++
    (if r == 0 then "" else "." ++ String.mk (fracDigits 40 r q.den))

/-- `String(cell)`: the text of a cell. -/
def cellToString : Cell → String
  | .num q => jsNumToString q
  | .str s => s

/-- Characters removed by `.replace(/[₹,\s]/g, '')`: the rupee glyph, the
comma, and the JavaScript `\s` whitespace class (its ASCII members; the
exotic Unicode spaces never occur in the inputs considered). -/
def strippedChar (c : Char) : Bool :=
  c == '₹' || c == ',' || c == ' ' || c == '\t' || c == '\n' || c == '\r' ||
    c == '\x0b' || c == '\x0c'

/-- `s.replace(/[₹,\s]/g, '')`. -/
def stripCurrency (s : String) : String :=
  String.mk (s.data.filter (fun c => !strippedChar c))

/-- Split a leading run of decimal digits off a character list. -/
def takeDigits : List Char → List Char × List Char
  | [] => ([], [])
  | c :: cs =>
    if c.isDigit then
      let (d, r) := takeDigits cs
      (c :: d, r)
    else ([], c :: cs)

/-- Value of a digit run. -/
def digitsToNat (ds : List Char) : Nat :=
  ds.foldl (fun a c => a * 10 + (c.toNat - 48)) 0

/-- Model of ECMAScript `parseFloat` on a string already stripped of
whitespace: an optional sign followed by decimal digits with an optional
fractional part; `none` models `NaN` (no digits at all).  Exponent,
hexadecimal and `Infinity` forms never arise from the inputs considered. -/
def jsParseFloat (s : String) : Option ℚ :=
  let (sgn, rest) :=
    match s.data with
    | '-' :: cs => ((-1 : Int), cs)
    | '+' :: cs => ((1 : Int), cs)
    | cs => ((1 : Int), cs)
  let (ip, rest2) := takeDigits rest
  let fp :=
    match rest2 with
    | '.' :: cs => (takeDigits cs).1
    | _ => []
  if ip.isEmpty && fp.isEmpty then none
  else
    some (mkRat (sgn * (digitsToNat ip * 10 ^ fp.length + digitsToNat fp)) (10 ^ fp.length))

/-- `Math.abs`. -/
def jsAbs (q : ℚ) : ℚ := if q < 0 then -q else q

/-- `parseFloat(String(cell).replace(/[₹,\s]/g, ''))`, with `NaN` as `none`.
For a numeric cell the print-strip-reparse round trip is the identity (a JS
number prints without rupee signs, commas or spaces, and `parseFloat`
recovers the printed value exactly), so that branch is taken directly. -/
def decodeAmount : Cell → Option ℚ
  | .num q => some q
  | .str s => jsParseFloat (stripCurrency s)

/-- Gregorian leap year. -/
def isLeap (y : Nat) : Bool := (y % 4 == 0 && y % 100 != 0) || y % 400 == 0

/-- Days in a Gregorian year. -/
def daysInYear (y : Nat) : Nat := if isLeap y then 366 else 365

/-- Length of month `m` (1..12) of year `y`. -/
def monthLen (y m : Nat) : Nat :=
  if m == 2 then (if isLeap y then 29 else 28)
  else if m == 4 || m == 6 || m == 9 || m == 11 then 30
  else 31

/-- Walk whole years forward from `y` while the day count `d` allows. -/
def yearStep : Nat → Nat → Nat → Nat × Nat
  | 0, y, d => (y, d)
  | fuel + 1, y, d =>
    if d < daysInYear y then (y, d) else yearStep fuel (y + 1) (d - daysInYear y)

/-- Walk whole months forward from `m` in year `y` while the day count
allows. -/
def monthStep : Nat → Nat → Nat → Nat → Nat × Nat
  | 0, _, m, d => (m, d)
  | fuel + 1, y, m, d =>
    if d < monthLen y m then (m, d) else monthStep fuel y (m + 1) (d - monthLen y m)

/-- Model of `XLSX.SSF.parse_date_code` on an integral day serial: Excel's
1900 date system, where serial 1 is 1900-01-01 and serials above 60 are
shifted down by one to compensate for the fictitious 1900-02-29.  Yields the
`(year, month, day)` triple. -/
def parseDateCode (v : Nat) : Nat × Nat × Nat :=
  let date := if v > 60 then v - 1 else v
  let days := date - 1
  let (y, dy) := yearStep 12000 1900 days
  let (m, dm) := monthStep 12 y 1 dy
  (y, m, dm + 1)

/-- `String(n).padStart(2, '0')`. -/
def pad2 (n : Nat) : String := if n < 10 then "0" ++ toString n else toString n

/-- The template literal assembling the decoded serial date:
the year unpadded, month and day padded to two digits. -/
def serialToDateStr (v : Nat) : String :=
  let ymd := parseDateCode v
  toString ymd.1 ++ "-" ++ pad2 ymd.2.1 ++ "-" ++ pad2 ymd.2.2

/-- A JavaScript number that may be `NaN`: `none` models `NaN`. -/
abbrev JSNum := Option ℚ

/-- The `ParsedTransaction` record of both upload components. -/
structure ParsedTransaction where
  date : String
  description : String
  category : String
  amount : ℚ
  type : String
  source : Option String
deriving DecidableEq, Repr

/-- The `ParsedEMI` record of the upload modal.  `totalAmount` is doubly
optional: the outer `Option` is JavaScript `undefined` (no `total` header),
the inner layer `NaN`. -/
structure ParsedEMI where
  name : String
  amount : ℚ
  dueDate : String
  totalAmount : Option JSNum
  paid : JSNum
deriving DecidableEq, Repr

/-- The `ParsedSavingsGoal` record of the upload modal. -/
structure ParsedSavingsGoal where
  name : String
  targetAmount : ℚ
  currentAmount : JSNum
  deadline : String
deriving DecidableEq, Repr

/-- The `ParsedData` aggregate returned by `parseExcelFile`. -/
structure ParsedData where
  transactions : List ParsedTransaction
  emis : List ParsedEMI
  savingsGoals : List ParsedSavingsGoal
deriving DecidableEq, Repr

/-- Header predicate for the transaction date column. -/
def dateKeyPred (k : String) : Bool := lowerHas k "date"

/-- Header predicate for the transaction description column. -/
def descKeyPred (k : String) : Bool :=
  lowerHas k "description" || lowerHas k "details" || lowerHas k "particulars" ||
    lowerHas k "narration"

/-- Header predicate for the category column. -/
def categoryKeyPred (k : String) : Bool := lowerHas k "category"

/-- Header predicate for the transaction amount column of the upload modal. -/
def amountKeyPred (k : String) : Bool :=
  lowerHas k "amount" || lowerHas k "debit" || lowerHas k "credit"

/-- Header predicate for the type column. -/
def typeKeyPred (k : String) : Bool := lowerHas k "type"

/-- Header predicate for the source column of the upload modal. -/
def sourceKeyPred (k : String) : Bool :=
  lowerHas k "source" || lowerHas k "account"

/-- The date normalization shared by all three row normalizers: a numeric
cell is an Excel day serial (`v|0` truncates a fractional serial) rendered as
`y-MM-DD`; a string cell is run through `new Date` and re-rendered in ISO
form when that parses.  On an ISO `YYYY-MM-DD` string that round trip is the
identity, and an unparseable string is kept unchanged, so the string branch
is the identity in this model (host-dependent acceptance of other date
formats is not modelled; no claim depends on it). -/
def normalizeDate (c : Cell) : String :=
  match c with
  | .num q => serialToDateStr q.floor.toNat
  | .str s => s

/-- Outcome of one iteration of the row loop of `parseTransactionsSheet`. -/
inductive RowOutcome where
  | emitted (t : ParsedTransaction)
  | skippedMissing
  | skippedBadAmount
deriving DecidableEq, Repr

/-- The body of the row loop of `parseTransactionsSheet`
(upload-modal.tsx lines 112-195): resolve the six headers with
`Object.keys(row).find`, require date, description and amount, decode the
amount (`NaN` skips the row with a warning), pick the kind from a truthy
type cell or else from the amount's sign, and emit the record with the
amount's absolute value. -/
def parseTxnRow (row : Row) : RowOutcome :=
  let dateKey := findKey row dateKeyPred
  let descKey := findKey row descKeyPred
  let categoryKey := findKey row categoryKeyPred
  let amountKey := findKey row amountKeyPred
  let typeKey := findKey row typeKeyPred
  let sourceKey := findKey row sourceKeyPred
  match dateKey, descKey, amountKey with
  | some dk, some dek, some ak =>
    let dateStr := normalizeDate (rowCell row dk)
    match decodeAmount (rowCell row ak) with
    | none => .skippedBadAmount
    | some amount =>
      let transactionType :=
        match typeKey with
        | some tk =>
          if cellTruthy (rowCell row tk) then cellToString (rowCell row tk)
          else if amount < 0 then "Expense" else "Income"
        | none => if amount < 0 then "Expense" else "Income"
      .emitted
        { date := dateStr
          description := cellToString (rowCell row dek)
          category :=
            match categoryKey with
            | some ck => cellToString (rowCell row ck)
            | none => "Uncategorized"
          amount := jsAbs amount
          type := transactionType
          source := sourceKey.map (fun sk => cellToString (rowCell row sk)) }
  | _, _, _ => .skippedMissing

/-- The row loop of `parseTransactionsSheet`, carrying the 0-based index
`i`: emitted records accumulate in order; a row whose amount decodes to
`NaN` contributes the row number `i + 2` printed by the
`console.warn` at line 174 to the diagnostics component (the sheet's header
row is row 1, so data row `i` is spreadsheet row `i + 2`).  Rows missing a
required header are skipped silently (the `missingFields` set collected by
the source is never returned or displayed). -/
def parseTransactionsSheetAux : Nat → List Row → List ParsedTransaction × List Nat
  | _, [] => ([], [])
  | i, row :: rest =>
    let tail := parseTransactionsSheetAux (i + 1) rest
    match parseTxnRow row with
    | .emitted t => (t :: tail.1, tail.2)
    | .skippedMissing => tail
    | .skippedBadAmount => (tail.1, (i + 2) :: tail.2)

/-- `parseTransactionsSheet` (upload-modal.tsx lines 108-198): the returned
transaction list.  (The source's `availableColumns` parameter is unused in
its body and omitted here.) -/
def parseTransactionsSheet (jsonData : List Row) : List ParsedTransaction :=
  (parseTransactionsSheetAux 0 jsonData).1

/-- Header predicate for the EMI name column. -/
def emiNameKeyPred (k : String) : Bool :=
  lowerHas k "name" || lowerHas k "loan" || lowerHas k "emi"

/-- Header predicate for the EMI amount column. -/
def emiAmountKeyPred (k : String) : Bool :=
  lowerHas k "amount" || lowerHas k "emi"

/-- Header predicate for the EMI due-date column. -/
def emiDueKeyPred (k : String) : Bool :=
  lowerHas k "due" || lowerHas k "date" || lowerHas k "end"

/-- Header predicate for the EMI total column. -/
def totalKeyPred (k : String) : Bool := lowerHas k "total"

/-- Header predicate for the EMI paid column. -/
def paidKeyPred (k : String) : Bool := lowerHas k "paid"

/-- The body of the row loop of `parseEMISheet` (upload-modal.tsx lines
203-253): require name, amount and due date, skip on a `NaN` amount, and
emit with `totalAmount` left `undefined` without a `total` header and
`paid` defaulting to `0` without a `paid` header. -/
def parseEMIRow (row : Row) : Option ParsedEMI :=
  let nameKey := findKey row emiNameKeyPred
  let amountKey := findKey row emiAmountKeyPred
  let dueDateKey := findKey row emiDueKeyPred
  let totalKey := findKey row totalKeyPred
  let paidKey := findKey row paidKeyPred
  match nameKey, amountKey, dueDateKey with
  | some nk, some ak, some dk =>
    let dateStr := normalizeDate (rowCell row dk)
    match decodeAmount (rowCell row ak) with
    | none => none
    | some amount =>
      some
        { name := cellToString (rowCell row nk)
          amount := amount
          dueDate := dateStr
          totalAmount := totalKey.map (fun tk => decodeAmount (rowCell row tk))
          paid :=
            match paidKey with
            | some pk => decodeAmount (rowCell row pk)
            | none => some 0 }
  | _, _, _ => none

/-- `parseEMISheet` (upload-modal.tsx lines 200-256). -/
def parseEMISheet (jsonData : List Row) : List ParsedEMI :=
  jsonData.filterMap parseEMIRow

/-- Header predicate for the savings-goal name column. -/
def savNameKeyPred (k : String) : Bool :=
  lowerHas k "name" || lowerHas k "goal"

/-- Header predicate for the savings-goal target column. -/
def savTargetKeyPred (k : String) : Bool :=
  lowerHas k "target" || lowerHas k "goal"

/-- Header predicate for the savings-goal current-amount column. -/
def savCurrentKeyPred (k : String) : Bool :=
  lowerHas k "current" || lowerHas k "saved"

/-- Header predicate for the savings-goal deadline column. -/
def savDeadlineKeyPred (k : String) : Bool :=
  lowerHas k "deadline" || lowerHas k "date" || lowerHas k "target date"

/-- The body of the row loop of `parseSavingsSheet` (upload-modal.tsx lines
261-308): require name, target and deadline (nothing requires the name and
target headers to be distinct), skip on a `NaN` target, and emit with
`currentAmount` defaulting to `0` without a `current`/`saved` header. -/
def parseSavingsRow (row : Row) : Option ParsedSavingsGoal :=
  let nameKey := findKey row savNameKeyPred
  let targetKey := findKey row savTargetKeyPred
  let currentKey := findKey row savCurrentKeyPred
  let deadlineKey := findKey row savDeadlineKeyPred
  match nameKey, targetKey, deadlineKey with
  | some nk, some tk, some dk =>
    let dateStr := normalizeDate (rowCell row dk)
    let target := decodeAmount (rowCell row tk)
    let current : JSNum :=
      match currentKey with
      | some ck => decodeAmount (rowCell row ck)
      | none => some 0
    match target with
    | none => none
    | some t =>
      some
        { name := cellToString (rowCell row nk)
          targetAmount := t
          currentAmount := current
          deadline := dateStr }
  | _, _, _ => none

/-- `parseSavingsSheet` (upload-modal.tsx lines 258-311). -/
def parseSavingsSheet (jsonData : List Row) : List ParsedSavingsGoal :=
  jsonData.filterMap parseSavingsRow

/-- The role a sheet is given from its name alone (upload-modal.tsx lines
76-90). -/
inductive SheetRole where
  | Transactions
  | Installments
  | SavingsGoals
deriving DecidableEq, Repr

/-- The sheet-name classification at lines 81-90: `emi`/`loan` wins over
`saving`/`goal`, and everything else defaults to Transactions. -/
def classifySheet (name : String) : SheetRole :=
  if lowerHas name "emi" || lowerHas name "loan" then .Installments
  else if lowerHas name "saving" || lowerHas name "goal" then .SavingsGoals
  else .Transactions

/-- The body of the sheet loop of `parseExcelFile` (upload-modal.tsx lines
68-91): an empty sheet is skipped; an `emi`/`loan` sheet ASSIGNS
`result.emis`, a `saving`/`goal` sheet ASSIGNS `result.savingsGoals`
(each overwriting whatever a previous sheet of the same role put there),
while a transactions sheet appends with `push(...)`. -/
def processSheet (acc : ParsedData) (sheet : String × Sheet) : ParsedData :=
  if sheet.2.isEmpty then acc
  else
    let sheetType := sheet.1
    if lowerHas sheetType "emi" || lowerHas sheetType "loan" then
      { acc with emis := parseEMISheet sheet.2 }
    else if lowerHas sheetType "saving" || lowerHas sheetType "goal" then
      { acc with savingsGoals := parseSavingsSheet sheet.2 }
    else
      { acc with transactions := acc.transactions ++ parseTransactionsSheet sheet.2 }

/-- `parseExcelFile` after the external decode: fold the sheet loop over the
workbook starting from the empty result. -/
def parseExcelFile (wb : Workbook) : ParsedData :=
  wb.foldl processSheet ⟨[], [], []⟩

/-- The parse-then-validate step of `handleFileUpload` (upload-modal.tsx
lines 323-328): parse the workbook, and fail with the distinct no-usable-data
message when all three collections come back empty. -/
def uploadParseOutcome (wb : Workbook) : Except String ParsedData :=
  let data := parseExcelFile wb
  if data.transactions.isEmpty && data.emis.isEmpty && data.savingsGoals.isEmpty then
    .error "No valid data found in file. Please check the format."
  else .ok data

/-- Header predicate for the description column of the upload page (no
`narration` token, unlike the modal). -/
def pageDescKeyPred (k : String) : Bool :=
  lowerHas k "description" || lowerHas k "details" || lowerHas k "particulars"

/-- Header predicate for the amount column of the upload page (only
`amount`; no `debit`/`credit`). -/
def pageAmountKeyPred (k : String) : Bool := lowerHas k "amount"

/-- Header predicate for the source column of the upload page (only
`source`; no `account`). -/
def pageSourceKeyPred (k : String) : Bool := lowerHas k "source"

/-- The body of the row loop of the standalone upload page's
`parseExcelFile` (upload-page.tsx lines 53-123): date, description, amount
AND type headers are all required, the kind is always the type cell's text,
and the token lists for description, amount and source are shorter than the
modal's. -/
def parsePageTxnRow (row : Row) : Option ParsedTransaction :=
  let dateKey := findKey row dateKeyPred
  let descKey := findKey row pageDescKeyPred
  let categoryKey := findKey row categoryKeyPred
  let amountKey := findKey row pageAmountKeyPred
  let typeKey := findKey row typeKeyPred
  let sourceKey := findKey row pageSourceKeyPred
  match dateKey, descKey, amountKey, typeKey with
  | some dk, some dek, some ak, some tk =>
    let dateStr := normalizeDate (rowCell row dk)
    match decodeAmount (rowCell row ak) with
    | none => none
    | some amount =>
      some
        { date := dateStr
          description := cellToString (rowCell row dek)
          category :=
            match categoryKey with
            | some ck => cellToString (rowCell row ck)
            | none => "Uncategorized"
          amount := jsAbs amount
          type := cellToString (rowCell row tk)
          source := sourceKey.map (fun sk => cellToString (rowCell row sk)) }
  | _, _, _, _ => none

/-- The transaction list built by the upload page's row loop. -/
def parsePageTransactions (jsonData : List Row) : List ParsedTransaction :=
  jsonData.filterMap parsePageTxnRow

/-- The emitted record of one transactions row, as an `Option`. -/
def emittedTxn (row : Row) : Option ParsedTransaction :=
  match parseTxnRow row with
  | .emitted t => some t
  | _ => none

/-- The sheets of a workbook that are non-empty and classified with the
given role, in workbook order. -/
def roleSheets (role : SheetRole) (wb : Workbook) : List Sheet :=
  (wb.filter (fun s => !s.2.isEmpty && classifySheet s.1 == role)).map Prod.snd

/-- Transactions of a workbook as the spec describes them: concatenation
over the Transactions-role sheets in workbook order. -/
def concatTransactions (wb : Workbook) : List ParsedTransaction :=
  (roleSheets .Transactions wb).flatMap parseTransactionsSheet

/-- The EMI records the engine actually ends up with: those of the LAST
non-empty Installments-role sheet, or none. -/
def lastSheetEmis (wb : Workbook) : List ParsedEMI :=
  (((roleSheets .Installments wb).getLast?).map parseEMISheet).getD []

/-- The savings-goal records the engine actually ends up with: those of the
LAST non-empty SavingsGoals-role sheet, or none. -/
def lastSheetSavings (wb : Workbook) : List ParsedSavingsGoal :=
  (((roleSheets .SavingsGoals wb).getLast?).map parseSavingsSheet).getD []

/-! Concrete fixtures used by the individual claims. -/

/-- A well-formed transactions row used to pad the ten-row sheet. -/
def plainTxnRow (n : ℚ) : Row :=
  [("Date", .num 45000), ("Description", .str "r"), ("Amount", .num n)]

/-- The ten-row transactions sheet of the spec's example; its third data row
(spreadsheet row 4, counting the header row as row 1) carries the
non-numeric amount "N/A". -/
def sheetTenRows : List Row :=
  [plainTxnRow 1, plainTxnRow 2,
   [("Date", .num 45000), ("Description", .str "r"), ("Amount", .str "N/A")],
   plainTxnRow 4, plainTxnRow 5, plainTxnRow 6, plainTxnRow 7, plainTxnRow 8,
   plainTxnRow 9, plainTxnRow 10]

/-- A row with a type header whose cell is the number 0: present (non-empty)
but falsy in JavaScript. -/
def rowTypeZero : Row :=
  [("Date", .num 45000), ("Description", .str "x"), ("Amount", .num 5), ("Type", .num 0)]

/-- A row with both a "Credit" and an "Amount" header, in that column
order, carrying different values. -/
def rowCreditAmount : Row :=
  [("Date", .num 45000), ("Description", .str "x"), ("Credit", .num 100), ("Amount", .num 250)]

/-- The spec's example transactions row. -/
def rowRentExample : Row :=
  [("Date", .num 45000), ("Description", .str "Rent"), ("Amount", .str "₹ 15,000")]

/-- An EMI row with a negative amount and no total or paid header. -/
def emiRowNeg : Row :=
  [("Name", .str "Car"), ("Amount", .num (-500)), ("Due Date", .num 45000)]

/-- A savings row whose single "Goal" header is the only header eligible for
both the name tokens and the target tokens. -/
def goalOnlyRow : Row :=
  [("Goal", .num 5000), ("Deadline", .num 45000)]

/-- A workbook with two Installments-role sheets, each contributing one
record. -/
def wbTwoLoanSheets : Workbook :=
  [("Loan A", [[("Name", .str "A"), ("Amount", .num 1), ("Due", .num 45000)]]),
   ("Loan B", [[("Name", .str "B"), ("Amount", .num 2), ("Due", .num 45000)]])]

/-- A transactions row with no type column. -/
def typelessRow : Row :=
  [("Date", .num 45000), ("Description", .str "Rent"), ("Amount", .num 100)]

/-- A single-sheet workbook whose one row resolves no required header. -/
def wbNoUsable : Workbook := [("Sheet1", [[("Foo", .str "x")]])]

/-- A transactions row with an explicit truthy type cell and none of the
header tokens known only to the modal parser. -/
def typedRow : Row :=
  [("Date", .num 45000), ("Description", .str "a"), ("Amount", .num (-5)),
   ("Type", .str "Expense")]

/-! ## Supporting lemmas -/

/-- The transaction component of the row loop is the `filterMap` of the
per-row outcome: the carried row index only feeds the diagnostics. -/
theorem auxFst_eq_filterMap (i : Nat) (rows : List Row) :
    (parseTransactionsSheetAux i rows).1 = rows.filterMap emittedTxn := by
  induction rows generalizing i with
  | nil => rfl
  | cons row rest ih =>
    cases h : parseTxnRow row with
    | emitted t => simp [parseTransactionsSheetAux, emittedTxn, h, ih]
    | skippedMissing => simp [parseTransactionsSheetAux, emittedTxn, h, ih]
    | skippedBadAmount => simp [parseTransactionsSheetAux, emittedTxn, h, ih]

/-! ## Claims -/

/-- C1: transactions row normalization is a fold accumulating successes and
diagnostics.  A row whose amount fails to decode is dropped without
discarding any prior or subsequent valid row, and on the concrete ten-row
sheet whose spreadsheet row 4 (the third data row; the header row is row 1,
as in the `console.warn` numbering `i + 2`) holds the amount "N/A", exactly
nine transactions are emitted together with the single skip diagnostic for
row 4. -/
theorem C1_transactions_skip_semantics :
    (∀ (pre post : List Row) (b : Row),
        parseTxnRow b = RowOutcome.skippedBadAmount →
        parseTransactionsSheet (pre ++ b :: post) =
          parseTransactionsSheet pre ++ parseTransactionsSheet post) ∧
    (parseTransactionsSheet sheetTenRows).length = 9 ∧
    (parseTransactionsSheetAux 0 sheetTenRows).2 = [4] := by
  refine ⟨fun pre post b hb => ?_, by decide, by decide⟩
  simp [parseTransactionsSheet, auxFst_eq_filterMap, emittedTxn, hb]

/-- Witness for C1: the bad-amount row between two valid rows drops out
while both neighbours survive. -/
theorem C1_transactions_skip_semantics_witness :
    parseTransactionsSheet
        ([plainTxnRow 1] ++
          [("Date", Cell.num 45000), ("Description", Cell.str "r"),
            ("Amount", Cell.str "N/A")] :: [plainTxnRow 2]) =
      parseTransactionsSheet [plainTxnRow 1] ++ parseTransactionsSheet [plainTxnRow 2] :=
  C1_transactions_skip_semantics.1 [plainTxnRow 1] [plainTxnRow 2] _ (by decide)

/-- C7: the example row `{Date: 45000, Description: "Rent", Amount: "₹ 15,000"}`
with no type column maps to
`{date: "2023-03-15", description: "Rent", category: "Uncategorized",
amount: 15000, kind: "Income"}`. -/
theorem C7_example_row_mapping :
    parseTransactionsSheet [rowRentExample] =
      [{ date := "2023-03-15", description := "Rent", category := "Uncategorized",
         amount := 15000, type := "Income", source := none }] := by decide

/-- C5: sheet roles come from the name alone, `emi`/`loan` before
`saving`/`goal` before the Transactions default; "EMI Schedule" is
Installments whatever its columns (the dispatch never looks at them) and
"Q1" is Transactions. -/
theorem C5_sheet_classification :
    classifySheet "EMI Schedule" = SheetRole.Installments ∧
    classifySheet "Q1" = SheetRole.Transactions ∧
    (∀ name, (lowerHas name "emi" = true ∨ lowerHas name "loan" = true) →
        classifySheet name = SheetRole.Installments) ∧
    (∀ name, lowerHas name "emi" = false → lowerHas name "loan" = false →
        (lowerHas name "saving" = true ∨ lowerHas name "goal" = true) →
        classifySheet name = SheetRole.SavingsGoals) ∧
    (∀ name, lowerHas name "emi" = false → lowerHas name "loan" = false →
        lowerHas name "saving" = false → lowerHas name "goal" = false →
        classifySheet name = SheetRole.Transactions) ∧
    (∀ (acc : ParsedData) (nm : String) (data : Sheet), data ≠ [] →
        processSheet acc (nm, data) =
          match classifySheet nm with
          | .Installments => { acc with emis := parseEMISheet data }
          | .SavingsGoals => { acc with savingsGoals := parseSavingsSheet data }
          | .Transactions =>
            { acc with transactions := acc.transactions ++ parseTransactionsSheet data }) := by
  refine ⟨by decide, by decide, ?_, ?_, ?_, ?_⟩
  · intro name h
    rcases h with h | h <;> simp [classifySheet, h]
  · intro name h1 h2 h3
    rcases h3 with h3 | h3 <;> simp [classifySheet, h1, h2, h3]
  · intro name h1 h2 h3 h4
    simp [classifySheet, h1, h2, h3, h4]
  · intro acc nm data hne
    have hi : data.isEmpty = false := by simpa using hne
    by_cases h1 : (lowerHas nm "emi" || lowerHas nm "loan") = true
    · simp [processSheet, classifySheet, hi, h1]
    · by_cases h2 : (lowerHas nm "saving" || lowerHas nm "goal") = true
      · simp [processSheet, classifySheet, hi, h1, h2]
      · simp [processSheet, classifySheet, hi, h1, h2]

/-- Witness for C5: the dispatch applied to the "EMI Schedule" sheet of the
negative-amount fixture. -/
theorem C5_sheet_classification_witness :
    processSheet ⟨[], [], []⟩ ("EMI Schedule", [emiRowNeg]) =
      { transactions := [], emis := parseEMISheet [emiRowNeg], savingsGoals := [] } := by
  have h := C5_sheet_classification.2.2.2.2.2 ⟨[], [], []⟩ "EMI Schedule" [emiRowNeg]
    (by decide)
  rw [C5_sheet_classification.1] at h
  exact h

/-- If every sheet of a workbook normalizes to nothing in all three roles,
the sheet fold leaves the empty result empty. -/
theorem foldl_processSheet_empty (wb : Workbook)
    (h : ∀ s ∈ wb, parseTransactionsSheet s.2 = [] ∧ parseEMISheet s.2 = [] ∧
        parseSavingsSheet s.2 = []) :
    wb.foldl processSheet ⟨[], [], []⟩ = ⟨[], [], []⟩ := by
  induction wb with
  | nil => rfl
  | cons s rest ih =>
    have hs := h s (by simp)
    have hrest : ∀ x ∈ rest, parseTransactionsSheet x.2 = [] ∧ parseEMISheet x.2 = [] ∧
        parseSavingsSheet x.2 = [] := fun x hx => h x (by simp [hx])
    have hstep : processSheet ⟨[], [], []⟩ s = ⟨[], [], []⟩ := by
      by_cases he : s.2.isEmpty
      · simp [processSheet, he]
      · by_cases h1 : (lowerHas s.1 "emi" || lowerHas s.1 "loan") = true
        · simp [processSheet, he, h1, hs.2.1]
        · by_cases h2 : (lowerHas s.1 "saving" || lowerHas s.1 "goal") = true
          · simp [processSheet, he, h1, h2, hs.2.2]
          · simp [processSheet, he, h1, h2, hs.1]
    simpa [hstep] using ih hrest

/-- C4: a workbook with at least one sheet in which every sheet yields zero
records in all three roles makes the upload flow fail with the distinct
no-usable-data message instead of succeeding emptily. -/
theorem C4_no_usable_data_failure :
    ∀ wb : Workbook, wb ≠ [] →
    (∀ s ∈ wb, parseTransactionsSheet s.2 = [] ∧ parseEMISheet s.2 = [] ∧
        parseSavingsSheet s.2 = []) →
    uploadParseOutcome wb =
      Except.error "No valid data found in file. Please check the format." := by
  intro wb _ h
  simp [uploadParseOutcome, parseExcelFile, foldl_processSheet_empty wb h]

/-- Witness for C4: the single-sheet workbook whose one row resolves no
required header. -/
theorem C4_no_usable_data_failure_witness :
    uploadParseOutcome wbNoUsable =
      Except.error "No valid data found in file. Please check the format." :=
  C4_no_usable_data_failure wbNoUsable (by decide) (by decide)

/-- C2 as stated fails on a type cell holding the number 0: the type header
is found and its cell is non-empty (its text is "0"), yet the emitted kind
is the sign-inferred "Income", not "0" — JavaScript truthiness, not
emptiness, guards the verbatim branch. -/
theorem C2_counterexample_type_zero :
    findKey rowTypeZero typeKeyPred = some "Type" ∧
    rowCell rowTypeZero "Type" = Cell.num 0 ∧
    cellToString (Cell.num 0) = "0" ∧
    parseTxnRow rowTypeZero = RowOutcome.emitted
      { date := "2023-03-15", description := "x", category := "Uncategorized",
        amount := 5, type := "Income", source := none } ∧
    "Income" ≠ "0" := by decide

/-- `Math.abs` is non-negative. -/
theorem jsAbs_nonneg (q : ℚ) : 0 ≤ jsAbs q := by
  unfold jsAbs
  split <;> linarith

/-- C2 amended: for every emitted transaction the amount is the non-negative
magnitude of the decoded value; the kind is the type cell's text verbatim
when a type header is found and its cell is truthy (non-empty text or
nonzero number), and otherwise — no type header, or an empty or numeric-zero
cell — the sign-inferred Expense/Income. -/
theorem C2_kind_and_magnitude :
    ∀ (row : Row) (t : ParsedTransaction), parseTxnRow row = RowOutcome.emitted t →
    0 ≤ t.amount ∧
    (∀ tk, findKey row typeKeyPred = some tk → cellTruthy (rowCell row tk) = true →
        t.type = cellToString (rowCell row tk)) ∧
    (∀ ak a, findKey row amountKeyPred = some ak →
        decodeAmount (rowCell row ak) = some a →
        t.amount = jsAbs a ∧
        ((findKey row typeKeyPred = none ∨
            ∃ tk, findKey row typeKeyPred = some tk ∧
              cellTruthy (rowCell row tk) = false) →
          t.type = if a < 0 then "Expense" else "Income")) := by
  intro row t h
  simp only [parseTxnRow] at h
  split at h
  case h_2 => exact absurd h (by simp)
  case h_1 dk dek ak hdk hdek hak =>
    split at h
    case h_1 => exact absurd h (by simp)
    case h_2 a ha =>
      rw [RowOutcome.emitted.injEq] at h
      subst h
      refine ⟨jsAbs_nonneg a, ?_, ?_⟩
      · intro tk htk htr
        simp [htk, htr]
      · intro ak' a' hak' ha'
        rw [hak] at hak'
        cases hak'
        rw [ha] at ha'
        cases ha'
        refine ⟨rfl, ?_⟩
        rintro (hnone | ⟨tk, htk, hfalse⟩)
        · simp [hnone]
        · simp [htk, hfalse]

/-- Witness for C2 amended: the spec's own example row, whose unsigned
positive amount yields kind Income and magnitude 15000. -/
theorem C2_kind_and_magnitude_witness :
    0 ≤ (15000 : ℚ) ∧ "Income" = (if (15000 : ℚ) < 0 then "Expense" else "Income") := by
  have h := C2_kind_and_magnitude rowRentExample
    { date := "2023-03-15", description := "Rent", category := "Uncategorized",
      amount := 15000, type := "Income", source := none } (by decide)
  have h2 := (h.2.2 "Amount" 15000 (by decide) (by decide)).2 (Or.inl (by decide))
  exact ⟨h.1, h2⟩

/-- Unfolding `roleSheets` over the head sheet. -/
theorem roleSheets_cons (role : SheetRole) (s : String × Sheet) (wb : Workbook) :
    roleSheets role (s :: wb) =
      if !s.2.isEmpty && classifySheet s.1 == role then s.2 :: roleSheets role wb
      else roleSheets role wb := by
  by_cases hc : (!s.2.isEmpty && classifySheet s.1 == role) = true
  · simp [roleSheets, List.filter_cons, hc]
  · simp [roleSheets, List.filter_cons, hc]

/-- Pushing one element into a last-of-list default. -/
theorem getLastD_map_cons {α β : Type _} (f : α → β) (x : α) (l : List α) (d : β) :
    (((x :: l).getLast?).map f).getD d = (((l.getLast?).map f)).getD (f x) := by
  cases l with
  | nil => rfl
  | cons y ys =>
    rw [List.getLast?_cons_cons]
    cases hg : (y :: ys).getLast? with
    | none => exact absurd hg (by simp)
    | some z => simp [hg]

/-- What the sheet fold really computes from an arbitrary accumulator:
transactions concatenate across Transactions-role sheets, while the EMI and
savings collections are whatever the LAST non-empty sheet of the matching
role produced, the accumulator's value when there is none. -/
theorem foldl_processSheet_eq (wb : Workbook) (acc : ParsedData) :
    wb.foldl processSheet acc =
      { transactions := acc.transactions ++ concatTransactions wb,
        emis := (((roleSheets .Installments wb).getLast?).map parseEMISheet).getD acc.emis,
        savingsGoals :=
          (((roleSheets .SavingsGoals wb).getLast?).map parseSavingsSheet).getD
            acc.savingsGoals } := by
  induction wb generalizing acc with
  | nil => simp [concatTransactions, roleSheets]
  | cons s rest ih =>
    rw [List.foldl_cons, ih]
    by_cases he : s.2.isEmpty
    · have hstep : processSheet acc s = acc := by
        rw [processSheet]
        simp [he]
      simp [hstep, concatTransactions, roleSheets_cons, he]
    · by_cases h1 : (lowerHas s.1 "emi" || lowerHas s.1 "loan") = true
      · have hstep : processSheet acc s = { acc with emis := parseEMISheet s.2 } := by
          rw [processSheet]
          simp [he, h1]
        have hcl : classifySheet s.1 = .Installments := by
          simp [classifySheet, h1]
        simp [hstep, concatTransactions, roleSheets_cons, he, hcl, getLastD_map_cons]
      · by_cases h2 : (lowerHas s.1 "saving" || lowerHas s.1 "goal") = true
        · have hstep : processSheet acc s =
              { acc with savingsGoals := parseSavingsSheet s.2 } := by
            rw [processSheet]
            simp [he, h1, h2]
          have hcl : classifySheet s.1 = .SavingsGoals := by
            simp only [classifySheet, h1, h2]
            simp
          simp [hstep, concatTransactions, roleSheets_cons, he, hcl, getLastD_map_cons]
        · have hstep : processSheet acc s =
              { acc with transactions := acc.transactions ++ parseTransactionsSheet s.2 } := by
            rw [processSheet]
            simp [he, h1, h2]
          have hcl : classifySheet s.1 = .Transactions := by
            simp only [classifySheet, h1, h2]
            simp
          simp [hstep, concatTransactions, roleSheets_cons, he, hcl, getLastD_map_cons]

/-- C3 as stated fails: the first Installments sheet of `wbTwoLoanSheets`
produces one record, yet the workbook result holds only the second sheet's
record — `result.emis` is assigned per sheet, not appended, so the earlier
sheet's records are NOT retained. -/
theorem C3_counterexample_overwrite :
    parseEMISheet [[("Name", .str "A"), ("Amount", .num 1), ("Due", .num 45000)]] =
      [{ name := "A", amount := 1, dueDate := "2023-03-15", totalAmount := none,
         paid := some 0 }] ∧
    (parseExcelFile wbTwoLoanSheets).emis =
      [{ name := "B", amount := 2, dueDate := "2023-03-15", totalAmount := none,
         paid := some 0 }] := by decide

/-- C3 amended: the transactions collection is the concatenation, in
workbook sheet order, of the records of every Transactions-role sheet with
rows in within-sheet order; the Installments and SavingsGoals collections
instead hold only the records of the LAST non-empty sheet of their role —
earlier same-role sheets are overwritten. -/
theorem C3_collections_characterization :
    ∀ wb : Workbook,
      parseExcelFile wb =
        { transactions := concatTransactions wb,
          emis := lastSheetEmis wb,
          savingsGoals := lastSheetSavings wb } := by
  intro wb
  rw [parseExcelFile, foldl_processSheet_eq]
  rfl

/-- C6 as stated fails: an EMI row whose amount cell is -500 is emitted with
`recurringAmount = -500` (no clamping), and without a `total` header the
emitted `totalAmount` is absent (`undefined`), not 0. -/
theorem C6_counterexample_negative_emi :
    parseEMISheet [emiRowNeg] =
      [{ name := "Car", amount := -500, dueDate := "2023-03-15", totalAmount := none,
         paid := some 0 }] ∧
    ¬(0 ≤ (-500 : ℚ)) ∧
    (none : Option JSNum) ≠ some (some 0) := by
  refine ⟨by decide, by norm_num, by simp⟩

/-- C6 amended: the only defaults are `paid = 0` without a `paid` header and
`currentAmount = 0` without a `current`/`saved` header; without a `total`
header `totalAmount` is absent rather than 0; and every emitted amount is
exactly the decoded cell value, sign included, with no non-negativity
guarantee. -/
theorem C6_emitted_amounts_verbatim :
    (∀ (row : Row) (e : ParsedEMI), parseEMIRow row = some e →
      (findKey row paidKeyPred = none → e.paid = some 0) ∧
      (findKey row totalKeyPred = none → e.totalAmount = none) ∧
      (∀ ak a, findKey row emiAmountKeyPred = some ak →
          decodeAmount (rowCell row ak) = some a → e.amount = a)) ∧
    (∀ (row : Row) (g : ParsedSavingsGoal), parseSavingsRow row = some g →
      (findKey row savCurrentKeyPred = none → g.currentAmount = some 0) ∧
      (∀ tk t, findKey row savTargetKeyPred = some tk →
          decodeAmount (rowCell row tk) = some t → g.targetAmount = t)) := by
  constructor
  · intro row e h
    simp only [parseEMIRow] at h
    split at h
    case h_2 => exact absurd h (by simp)
    case h_1 nk ak dk hnk hak hdk =>
      split at h
      case h_1 => exact absurd h (by simp)
      case h_2 a ha =>
        rw [Option.some.injEq] at h
        subst h
        refine ⟨fun hp => by simp [hp], fun ht => by simp [ht], ?_⟩
        intro ak' a' hak' ha'
        rw [hak] at hak'
        cases hak'
        rw [ha] at ha'
        cases ha'
        rfl
  · intro row g h
    simp only [parseSavingsRow] at h
    split at h
    case h_2 => exact absurd h (by simp)
    case h_1 nk tk dk hnk htk hdk =>
      split at h
      case h_1 => exact absurd h (by simp)
      case h_2 t ht =>
        rw [Option.some.injEq] at h
        subst h
        refine ⟨fun hc => by simp [hc], ?_⟩
        intro tk' t' htk' ht'
        rw [htk] at htk'
        cases htk'
        rw [ht] at ht'
        cases ht'
        rfl

/-- Witness for C6 amended: the negative-amount fixture keeps its sign and
its defaults. -/
theorem C6_emitted_amounts_verbatim_witness :
    ({ name := "Car", amount := -500, dueDate := "2023-03-15", totalAmount := none,
       paid := some 0 } : ParsedEMI).paid = some 0 ∧
    ({ name := "Car", amount := -500, dueDate := "2023-03-15", totalAmount := none,
       paid := some 0 } : ParsedEMI).totalAmount = none := by
  have h := C6_emitted_amounts_verbatim.1 emiRowNeg
    { name := "Car", amount := -500, dueDate := "2023-03-15", totalAmount := none,
      paid := some 0 } (by decide)
  exact ⟨h.1 (by decide), h.2.1 (by decide)⟩

/-- C8 as stated fails: for the header order ["Credit", "Amount"] the amount
field binds to "Credit" (and the row's emitted amount is the Credit cell's
100), not to "Amount" as token priority would demand. -/
theorem C8_counterexample_credit_first :
    findKey rowCreditAmount amountKeyPred = some "Credit" ∧
    parseTxnRow rowCreditAmount = RowOutcome.emitted
      { date := "2023-03-15", description := "x", category := "Uncategorized",
        amount := 100, type := "Income", source := none } ∧
    some "Credit" ≠ some "Amount" := by decide

/-- C8 amended: the amount header is found by ONE scan over the headers in
original column order testing the disjunction of the tokens `amount`,
`debit`, `credit`; the first matching header wins, with no priority among
the tokens, so ["Credit", "Amount"] binds Credit. -/
theorem C8_amount_binding_order :
    (∀ (row : Row) (k : String),
      findKey row amountKeyPred = some k ↔
        amountKeyPred k = true ∧
        ∃ pre post, rowKeys row = pre ++ k :: post ∧
          ∀ k' ∈ pre, amountKeyPred k' = false) ∧
    findKey rowCreditAmount amountKeyPred = some "Credit" := by
  refine ⟨fun row k => ?_, by decide⟩
  rw [findKey, List.find?_eq_some]
  constructor
  · rintro ⟨hk, pre, post, hsplit, hpre⟩
    exact ⟨hk, pre, post, hsplit, fun k' hk' => by simpa using hpre k' hk'⟩
  · rintro ⟨hk, pre, post, hsplit, hpre⟩
    exact ⟨hk, pre, post, hsplit, fun k' hk' => by simpa using hpre k' hk'⟩

/-- Witness for C8 amended: instantiated on the Credit/Amount fixture. -/
theorem C8_amount_binding_order_witness :
    amountKeyPred "Credit" = true ∧
    ∃ pre post, rowKeys rowCreditAmount = pre ++ "Credit" :: post ∧
      ∀ k' ∈ pre, amountKeyPred k' = false :=
  (C8_amount_binding_order.1 rowCreditAmount "Credit").mp (by decide)

/-- C9 as stated fails: in the row whose only name/target-eligible header is
the shared "Goal" column, the row is NOT skipped — the same header serves
both roles and a record is emitted (with the goal cell's text as its
name). -/
theorem C9_counterexample_shared_goal_header :
    findKey goalOnlyRow savNameKeyPred = some "Goal" ∧
    findKey goalOnlyRow savTargetKeyPred = some "Goal" ∧
    (∀ k ∈ rowKeys goalOnlyRow, k ≠ "Goal" →
        savNameKeyPred k = false ∧ savTargetKeyPred k = false) ∧
    parseSavingsSheet [goalOnlyRow] =
      [{ name := "5000", targetAmount := 5000, currentAmount := some 0,
         deadline := "2023-03-15" }] := by decide

/-- C9 amended: when the same header resolves both the name and the target
(with some deadline header present), the row is emitted whenever the shared
cell decodes as a number — its text becomes the name and its value the
target — and is skipped only when the decode fails. -/
theorem C9_shared_header_emits :
    ∀ (row : Row) (k dk : String),
      findKey row savNameKeyPred = some k →
      findKey row savTargetKeyPred = some k →
      findKey row savDeadlineKeyPred = some dk →
      (∀ t, decodeAmount (rowCell row k) = some t →
          parseSavingsRow row = some
            { name := cellToString (rowCell row k), targetAmount := t,
              currentAmount :=
                match findKey row savCurrentKeyPred with
                | some ck => decodeAmount (rowCell row ck)
                | none => some 0,
              deadline := normalizeDate (rowCell row dk) }) ∧
      (decodeAmount (rowCell row k) = none → parseSavingsRow row = none) := by
  intro row k dk hn ht hd
  constructor
  · intro t hdec
    simp only [parseSavingsRow, hn, ht, hd, hdec]
  · intro hdec
    simp only [parseSavingsRow, hn, ht, hd, hdec]

/-- Witness for C9 amended: the shared-Goal fixture is emitted, not
skipped. -/
theorem C9_shared_header_emits_witness :
    parseSavingsRow goalOnlyRow = some
      { name := "5000", targetAmount := 5000, currentAmount := some 0,
        deadline := "2023-03-15" } := by
  have h := (C9_shared_header_emits goalOnlyRow "Goal" "Deadline"
    (by decide) (by decide) (by decide)).1 5000 (by decide)
  have hc : findKey goalOnlyRow savCurrentKeyPred = none := by decide
  rw [hc] at h
  exact h

/-- `find?` depends only on the predicate's values on the list. -/
theorem find?_congr_on {α : Type _} (l : List α) (p q : α → Bool)
    (h : ∀ x ∈ l, p x = q x) : l.find? p = l.find? q := by
  induction l with
  | nil => rfl
  | cons x xs ih =>
    rw [List.find?_cons, List.find?_cons, h x (by simp)]
    cases q x <;> simp [ih (fun y hy => h y (by simp [hy]))]

/-- `filterMap` depends only on the function's values on the list. -/
theorem filterMap_congr_on {α β : Type _} (l : List α) (f g : α → Option β)
    (h : ∀ x ∈ l, f x = g x) : l.filterMap f = l.filterMap g := by
  induction l with
  | nil => rfl
  | cons x xs ih =>
    rw [List.filterMap_cons, List.filterMap_cons, h x (by simp),
      ih (fun y hy => h y (by simp [hy]))]

/-- On a row none of whose headers matches the modal-only tokens
(`narration`, `debit`, `credit`, `account`) and whose type header resolves
to a truthy cell, the upload page's row parser and the upload modal's row
loop produce the same optional record. -/
theorem pageRow_agrees (row : Row)
    (hk : ∀ k ∈ rowKeys row, lowerHas k "narration" = false ∧
        lowerHas k "debit" = false ∧ lowerHas k "credit" = false ∧
        lowerHas k "account" = false)
    (htype : ∃ tk, findKey row typeKeyPred = some tk ∧
        cellTruthy (rowCell row tk) = true) :
    parsePageTxnRow row = emittedTxn row := by
  obtain ⟨tk, htk, htr⟩ := htype
  have hdesc : findKey row pageDescKeyPred = findKey row descKeyPred :=
    find?_congr_on _ _ _
      (fun k hk' => by simp [pageDescKeyPred, descKeyPred, (hk k hk').1])
  have hamt : findKey row pageAmountKeyPred = findKey row amountKeyPred :=
    find?_congr_on _ _ _
      (fun k hk' => by
        simp [pageAmountKeyPred, amountKeyPred, (hk k hk').2.1, (hk k hk').2.2.1])
  have hsrc : findKey row pageSourceKeyPred = findKey row sourceKeyPred :=
    find?_congr_on _ _ _
      (fun k hk' => by simp [pageSourceKeyPred, sourceKeyPred, (hk k hk').2.2.2])
  cases hdk : findKey row dateKeyPred with
  | none => simp [parsePageTxnRow, emittedTxn, parseTxnRow, hdk]
  | some dk =>
    cases hdek : findKey row descKeyPred with
    | none => simp [parsePageTxnRow, emittedTxn, parseTxnRow, hdesc, hdk, hdek]
    | some dek =>
      cases hak : findKey row amountKeyPred with
      | none =>
        simp [parsePageTxnRow, emittedTxn, parseTxnRow, hdesc, hamt, hdk, hdek, hak]
      | some ak =>
        cases ha : decodeAmount (rowCell row ak) with
        | none =>
          simp [parsePageTxnRow, emittedTxn, parseTxnRow, hdesc, hamt, hsrc, hdk,
            hdek, hak, htk, ha]
        | some a =>
          simp [parsePageTxnRow, emittedTxn, parseTxnRow, hdesc, hamt, hsrc, hdk,
            hdek, hak, htk, ha, htr]

/-- C10 as stated fails: on a sheet whose single row has no type column, the
modal's normalizer emits a record with the sign-inferred kind while the
page's parser emits nothing at all — the two ingestion paths are not
behaviorally equivalent. -/
theorem C10_counterexample_type_required :
    parsePageTransactions [typelessRow] = [] ∧
    parseTransactionsSheet [typelessRow] =
      [{ date := "2023-03-15", description := "Rent", category := "Uncategorized",
         amount := 100, type := "Income", source := none }] := by decide

/-- C10 amended: the two paths agree exactly on the sheets in which the page
parser's stricter contract is met — every row has a type header with a
truthy cell, and no header matches the tokens only the modal knows
(`narration`, `debit`, `credit`, `account`); otherwise they may differ. -/
theorem C10_agreement_under_common_headers :
    ∀ rows : List Row,
      (∀ row ∈ rows, ∀ k ∈ rowKeys row,
          lowerHas k "narration" = false ∧ lowerHas k "debit" = false ∧
          lowerHas k "credit" = false ∧ lowerHas k "account" = false) →
      (∀ row ∈ rows, ∃ tk, findKey row typeKeyPred = some tk ∧
          cellTruthy (rowCell row tk) = true) →
      parsePageTransactions rows = parseTransactionsSheet rows := by
  intro rows hk ht
  rw [parseTransactionsSheet, auxFst_eq_filterMap, parsePageTransactions]
  exact filterMap_congr_on _ _ _ (fun r hr => pageRow_agrees r (hk r hr) (ht r hr))

/-- Witness for C10 amended: a one-row sheet with a truthy Type cell and
only shared header tokens parses identically on both paths. -/
theorem C10_agreement_under_common_headers_witness :
    parsePageTransactions [typedRow] = parseTransactionsSheet [typedRow] :=
  C10_agreement_under_common_headers [typedRow] (by decide)
    (by
      intro row hr
      rw [List.mem_singleton] at hr
      subst hr
      exact ⟨"Type", by decide, by decide⟩)

end WealthGenie
